import Mathlib

/-!
# callgo: the dispatch handler of directus-call-go

A shallow embedding of `callgo/handler.go` (options, `Register`, `callHandler`,
`emitUserError`) together with the functions registered by `testapp/main.go`.

The handler is straight-line code over four collaborators, each made explicit:

* the response writer of `net/http` is a record (live header map, the status line
  and headers fixed by the first `WriteHeader`, the body written so far);
* `encoding/json` and the `fmt` verbs `%q` and `%T` are the fields of `Lib`;
* the package-level declarations of `callgo` that live outside `handler.go`
  (the registry `funcs`, the two context keys) are the fields of `Package`;
* a registered function is a state transformer over a user state `σ`.

Besides the response, the handler returns the ordered trace of what it did
(body read, log records, registry lookup, invocation), the user state, and
whether it panicked.
-/

namespace callgo

/-! ## net/http -/

namespace http

/-- The header map of net/http: canonical key to list of values. -/
abbrev Header := List (String × List String)

/-- Header.Get: first value stored under the key, the empty string when there is none. -/
def Header.Get (h : Header) (key : String) : String :=
  match h.lookup key with
  | some (v :: _) => v
  | _ => ""

/-- Header.Del: remove the key. -/
def Header.Del (h : Header) (key : String) : Header :=
  h.filter (fun e => e.1 != key)

/-- Header.Set: replace whatever is stored under the key by the single value. -/
def Header.Set (h : Header) (key value : String) : Header :=
  (key, [value]) :: Header.Del h key

def StatusOK : Nat := 200
def StatusBadRequest : Nat := 400
def StatusUnauthorized : Nat := 401
def StatusNotFound : Nat := 404
def StatusInternalServerError : Nat := 500

/-- The state of an http.ResponseWriter: header is the live map returned by
w.Header(); sent holds the status code and the headers as they were when
WriteHeader first ran; body is everything written so far. Writes never fail. -/
structure ResponseWriter where
  header : Header
  sent : Option (Nat × Header)
  body : String
deriving DecidableEq

/-- The writer net/http hands to a handler: nothing set, nothing sent. -/
def ResponseWriter.fresh : ResponseWriter :=
  { header := [], sent := none, body := "" }

/-- The call w.Header().Set(key, value). -/
def ResponseWriter.HeaderSet (w : ResponseWriter) (key value : String) : ResponseWriter :=
  { w with header := Header.Set w.header key value }

/-- The call w.Header().Del(key). -/
def ResponseWriter.HeaderDel (w : ResponseWriter) (key : String) : ResponseWriter :=
  { w with header := Header.Del w.header key }

/-- WriteHeader: the first call fixes status and headers, later calls are ignored. -/
def ResponseWriter.WriteHeader (w : ResponseWriter) (code : Nat) : ResponseWriter :=
  match w.sent with
  | some _ => w
  | none => { w with sent := some (code, w.header) }

/-- Write: an implicit WriteHeader(200) when nothing was sent yet, then the bytes. -/
def ResponseWriter.Write (w : ResponseWriter) (p : String) : ResponseWriter :=
  let w1 := w.WriteHeader StatusOK
  { w1 with body := w1.body ++ p }

end http

namespace fmt

/-- The call fmt.Fprintln(w, s): the text followed by a newline. -/
def Fprintln (w : http.ResponseWriter) (s : String) : http.ResponseWriter :=
  w.Write (s ++ "\n")

end fmt

namespace http

/-- The function http.Error: plain-text headers, the status code, the message as one line. -/
def Error (w : ResponseWriter) (msg : String) (code : Nat) : ResponseWriter :=
  let w1 := w.HeaderDel "Content-Length"
  let w2 := w1.HeaderSet "Content-Type" "text/plain; charset=utf-8"
  let w3 := w2.HeaderSet "X-Content-Type-Options" "nosniff"
  let w4 := w3.WriteHeader code
  fmt.Fprintln w4 msg

end http

/-! ## context -/

/-- The two kinds of value the handler stores in a context: the pointers
ir.Accountability and ir.Trigger (none is the nil pointer). -/
inductive ContextValue (A T : Type) where
  | accountability (p : Option A)
  | rawTrigger (p : Option T)
deriving DecidableEq

/-- A context.Context as its chain of WithValue bindings, innermost first. Keys are
compared by identity, numbered here. -/
abbrev Context (A T : Type) := List (Nat × ContextValue A T)

/-- The function context.WithValue. -/
def Context.WithValue {A T : Type} (ctx : Context A T) (key : Nat) (val : ContextValue A T) :
    Context A T :=
  (key, val) :: ctx

/-- The method ctx.Value(key): the innermost binding of the key, none for nil. -/
def Context.Value {A T : Type} (ctx : Context A T) (key : Nat) : Option (ContextValue A T) :=
  List.lookup key ctx

/-! ## The request, the envelope, the options -/

/-- The bytes of json.RawMessage. -/
abbrev RawMessage := String

/-- An error value, by the text that err.Error() and the fmt verbs print for it. -/
abbrev GoError := String

/-- The parts of *http.Request the handler reads. -/
structure Request (A T : Type) where
  Header : http.Header
  Body : String
  ctx : Context A T

structure invokeRequest (A T : Type) where
  FnName : String
  Accountability : Option A
  Payload : RawMessage
  Trigger : Option T
deriving DecidableEq

structure errorResponse where
  Error : String
deriving DecidableEq

/-- A *slog.Logger, by identity; discard is the logger Register installs by default,
slog.New(slog.NewTextHandler(io.Discard, nil)). -/
inductive Logger where
  | discard
  | named (id : Nat)
deriving DecidableEq

structure registerOptions where
  securityToken : String
  logger : Option Logger
deriving DecidableEq

abbrev RegisterOption := registerOptions → registerOptions

def WithSecurityToken (token : String) : RegisterOption :=
  fun r => { r with securityToken := token }

def WithLogger (logger : Option Logger) : RegisterOption :=
  fun r => { r with logger := logger }

/-! ## encoding/json, fmt, reflect -/

/-- The behaviour of the standard library that the handler relies on.
V is the type of Go values that travel through reflection. -/
structure Lib (V A T : Type) where
  /-- The call json.NewDecoder(r.Body).Decode(&ir) on a zero invokeRequest. -/
  Decode : String → Except GoError (invokeRequest A T)
  /-- The call json.Unmarshal(data, p) where p points to the given fresh value. -/
  Unmarshal : RawMessage → V → Except GoError V
  /-- What json marshals a value to, or the error it reports. -/
  Marshal : V → Except GoError String
  /-- The JSON string literal json writes for a Go string. -/
  MarshalString : String → String
  /-- The verb %q applied to a string. -/
  fmtQ : String → String
  /-- The verb %T applied to a pointer to the given value. -/
  fmtT : V → String

namespace json

/-- The call json.NewEncoder(w).Encode(v), given what v marshals to: a value that
does not marshal is reported before anything is written, otherwise the
encoding and a newline are written in one Write. -/
def Encode (w : http.ResponseWriter) (marshalled : Except GoError String) :
    http.ResponseWriter × Option GoError :=
  match marshalled with
  | .error e => (w, some e)
  | .ok b => (w.Write (b ++ "\n"), none)

end json

/-- What json marshals errorResponse to: the struct has the one string field
tagged "error", which always marshals. -/
def errorResponse.Marshal {V A T : Type} (lib : Lib V A T) (e : errorResponse) :
    Except GoError String :=
  .ok ("\x7b\"error\":" ++ lib.MarshalString e.Error ++ "\x7d")

/-- The slice returned by fv.Call, by its length: one result (the error, none
for nil), two results (the value and the error), or any other number. -/
inductive Out (V : Type) where
  | one (err : Option GoError)
  | two (val : V) (err : Option GoError)
  | other (n : Nat)
deriving DecidableEq

/-- The reflect.Value of a registered function. NumIn is fv.Type().NumIn();
In1Elem is the zero value that reflect.New(fv.Type().In(1).Elem()) points to
(read only when NumIn is 2, the second parameter being a pointer as in the test
application); Call is fv.Call on the context and the remaining arguments,
acting on the user state. -/
structure FuncValue (V A T σ : Type) where
  NumIn : Nat
  In1Elem : V
  Call : Context A T → List V → σ → Out V × σ

/-- An entry of the registry. -/
structure Descriptor (V A T σ : Type) where
  fv : FuncValue V A T σ

/-- The package-level declarations of callgo used by the handler and declared
outside handler.go: the registry and the two context keys. -/
structure Package (V A T σ : Type) where
  funcs : List (String × Descriptor V A T σ)
  accountabilityKey : Nat
  rawTriggerKey : Nat

/-! ## The handler -/

inductive Level where
  | info
  | error
deriving DecidableEq

/-- What the handler does besides writing the response, in order. -/
inductive Event (V A T : Type) where
  /-- The request body was handed to the JSON decoder. -/
  | readBody
  /-- A record was sent to the logger. -/
  | log (logger : Logger) (level : Level) (msg : String) (attrs : List (String × String))
  /-- The registry was indexed with the name. -/
  | lookup (name : String)
  /-- The function registered under the name was called. -/
  | call (name : String) (ctx : Context A T) (args : List V)
deriving DecidableEq

/-- The outcome of serving one request. -/
structure Result (V A T σ : Type) where
  w : http.ResponseWriter
  trace : List (Event V A T)
  state : σ
  panicked : Option String

/-- The panic raised by a method call on the nil logger. -/
def nilLogger : String := "runtime error: invalid memory address or nil pointer dereference"

/-- The function emitUserError; returns the writer, the log records and the panic, if any. -/
def emitUserError {V A T : Type} (lib : Lib V A T) (cnf : registerOptions)
    (w : http.ResponseWriter) (ir : invokeRequest A T) (err : GoError) :
    http.ResponseWriter × List (Event V A T) × Option String :=
  match cnf.logger with
  | none => (w, [], some nilLogger)
  | some logger =>
    let ev : Event V A T :=
      .log logger .error "callgo: function call error" [("error", err), ("fnname", ir.FnName)]
    let w1 := w.HeaderSet "Content-Type" "application/json; charset=utf-8"
    match json.Encode w1 (errorResponse.Marshal lib { Error := err }) with
    | (w2, some e) =>
      (http.Error w2 ("cannot encode error response: " ++ e) http.StatusInternalServerError,
        [ev], none)
    | (w2, none) => (w2, [ev], none)

/-- The handler returned by callHandler(cnf), applied to a writer, a request and
the user state. The two nested tests that guard the 401 reply are written as one
conjunction; args is the slice built after the context; each return of the
source is one record, carrying the trace up to that point. A log call on the nil
logger and the default case of the switch end in a panic. -/
def callHandler {V A T σ : Type} (lib : Lib V A T) (pkg : Package V A T σ)
    (cnf : registerOptions) (w : http.ResponseWriter) (r : Request A T) (s : σ) :
    Result V A T σ :=
  if cnf.securityToken ≠ "" ∧
      http.Header.Get r.Header "Authorization" ≠ "Bearer " ++ cnf.securityToken then
    { w := http.Error w "wrong authorization token" http.StatusUnauthorized,
      trace := [], state := s, panicked := none }
  else
    match lib.Decode r.Body with
    | .error _ =>
      { w := http.Error w "invalid request" http.StatusBadRequest,
        trace := [.readBody], state := s, panicked := none }
    | .ok ir =>
      match cnf.logger with
      | none => { w := w, trace := [.readBody], state := s, panicked := some nilLogger }
      | some logger =>
        let t1 : List (Event V A T) :=
          [.readBody, .log logger .info "Function called" [("fnname", ir.FnName)],
            .lookup ir.FnName]
        match pkg.funcs.lookup ir.FnName with
        | none =>
          { w := http.Error w ("function " ++ lib.fmtQ ir.FnName ++ " not found")
              http.StatusNotFound,
            trace := t1, state := s, panicked := none }
        | some f =>
          let ctx0 := r.ctx
          let ctx1 := ctx0.WithValue pkg.accountabilityKey (.accountability ir.Accountability)
          let ctx := ctx1.WithValue pkg.rawTriggerKey (.rawTrigger ir.Trigger)
          let args : Except GoError (List V) :=
            if f.fv.NumIn = 2 then
              match lib.Unmarshal ir.Payload f.fv.In1Elem with
              | .error err => .error err
              | .ok payload => .ok [payload]
            else .ok []
          match args with
          | .error err =>
            { w := http.Error w ("cannot decode request payload: " ++ err)
                http.StatusBadRequest,
              trace := t1 ++ [.log logger .error "callgo: cannot decode request payload"
                [("fnname", ir.FnName), ("error", err), ("payload", ir.Payload),
                  ("target", lib.fmtT f.fv.In1Elem)]],
              state := s, panicked := none }
          | .ok args =>
            let t2 := t1 ++ [.call ir.FnName ctx args]
            match f.fv.Call ctx args s with
            | (.one (some err), s1) =>
              let e := emitUserError lib cnf w ir err
              { w := e.1, trace := t2 ++ e.2.1, state := s1, panicked := e.2.2 }
            | (.one none, s1) =>
              { w := fmt.Fprintln w "\x7b\x7d", trace := t2, state := s1, panicked := none }
            | (.two _ (some err), s1) =>
              let e := emitUserError lib cnf w ir err
              { w := e.1, trace := t2 ++ e.2.1, state := s1, panicked := e.2.2 }
            | (.two val none, s1) =>
              let w1 := w.HeaderSet "Content-Type" "application/json; charset=utf-8"
              match json.Encode w1 (lib.Marshal val) with
              | (w2, some e) =>
                { w := http.Error w2 ("cannot encode response data: " ++ e)
                    http.StatusInternalServerError,
                  trace := t2, state := s1, panicked := none }
              | (w2, none) => { w := w2, trace := t2, state := s1, panicked := none }
            | (.other _, s1) =>
              { w := w, trace := t2, state := s1, panicked := some "should not reach here" }

/-- The local cnf of Register when it mounts the handler: the options applied in
order to the zero value, then the default logger when none was set. -/
def Register.cnf (opts : List RegisterOption) : registerOptions :=
  let cnf := opts.foldl (fun c opt => opt c) { securityToken := "", logger := none }
  if cnf.logger = none then { cnf with logger := some Logger.discard } else cnf

/-- The function Register: the pattern and the handler it passes to http.HandleFunc. -/
def Register {V A T σ : Type} (lib : Lib V A T) (pkg : Package V A T σ)
    (opts : List RegisterOption) :
    String × (http.ResponseWriter → Request A T → σ → Result V A T σ) :=
  ("/__callgo", callHandler lib pkg (Register.cnf opts))

end callgo

/-! ## The test application -/

namespace testapp

open callgo

/-- The Go values that pass through reflection in the examples: a *fooExample,
a *Foo (the struct with the one field Bar), a string, and a channel (which
json cannot encode). -/
inductive Value where
  | fooExample (Foo : String) (Bar : Int)
  | Foo (Bar : Int)
  | string (s : String)
  | chan
deriving DecidableEq

/-- The standard output of the process, line by line. -/
abbrev Stdout := List String

/-- Modelled from the spec: callgo.AccountabilityFromContext, the context accessor
that reads the accountability out of the call context (declared outside
handler.go). -/
def AccountabilityFromContext {A T : Type} (accountabilityKey : Nat) (ctx : Context A T) :
    Option A :=
  match ctx.Value accountabilityKey with
  | some (.accountability p) => p
  | _ => none

/-- The registered function NoParamsNoReturn. -/
def noParamsNoReturnFn : Descriptor Value String String Stdout :=
  { fv := { NumIn := 1, In1Elem := .string "",
            Call := fun _ _ out => (.one none, out ++ ["NoParamsNoReturn called"]) } }

/-- The registered function NoParamsWithReturn. -/
def noParamsWithReturnFn : Descriptor Value String String Stdout :=
  { fv := { NumIn := 1, In1Elem := .string "",
            Call := fun _ _ out => (.two (.string "foo-value") none, out) } }

/-- The registered function ParamWithReturn. (Called with anything but one
*fooExample, reflection panics; the handler never does so.) -/
def paramWithReturnFn : Descriptor Value String String Stdout :=
  { fv := { NumIn := 2, In1Elem := .fooExample "" 0,
            Call := fun _ args out =>
              match args with
              | [.fooExample foo _] => (.two (.fooExample (foo ++ "new-foo-value") 42) none, out)
              | _ => (.other 0, out) } }

/-- The registered function Accountability; the line printed is the verb %#v of the
pointer, given here for an accountability kept as its JSON text. -/
def accountabilityFn (accountabilityKey : Nat) : Descriptor Value String String Stdout :=
  { fv := { NumIn := 1, In1Elem := .string "",
            Call := fun ctx _ out =>
              (.one none,
                out ++ [match AccountabilityFromContext accountabilityKey ctx with
                        | none => "(*callgo.Accountability)(nil)"
                        | some a => "&callgo.Accountability" ++ a]) } }

/-- The registered function Error. -/
def errorFn : Descriptor Value String String Stdout :=
  { fv := { NumIn := 1, In1Elem := .string "",
            Call := fun _ _ out => (.one (some "error message"), out) } }

/-- A function that is not part of the test application: it returns its argument
with Bar incremented. -/
def echoFn : Descriptor Value String String Stdout :=
  { fv := { NumIn := 2, In1Elem := .Foo 0,
            Call := fun _ args out =>
              match args with
              | [.Foo bar] => (.two (.Foo (bar + 1)) none, out)
              | _ => (.other 0, out) } }

/-- A function that is not part of the test application: it returns a channel and no error. -/
def chanFn : Descriptor Value String String Stdout :=
  { fv := { NumIn := 1, In1Elem := .string "",
            Call := fun _ _ out => (.two .chan none, out) } }

/-- The package state once the test application has registered its functions
(and echoFn, chanFn), with two distinct context keys. -/
def pkg : Package Value String String Stdout :=
  { funcs := [("NoParamsNoReturn", noParamsNoReturnFn),
              ("NoParamsWithReturn", noParamsWithReturnFn),
              ("ParamWithReturn", paramWithReturnFn),
              ("Accountability", accountabilityFn 0),
              ("Error", errorFn),
              ("Echo", echoFn),
              ("Chan", chanFn)],
    accountabilityKey := 0,
    rawTriggerKey := 1 }

/-- A string literal for text without characters that need escaping. -/
def quote (s : String) : String := "\"" ++ s ++ "\""

/-- The standard library on the inputs used by the examples below: json on nine
request bodies and two payloads, on the four kinds of Value, and the verbs
on plain names. It is a table for these inputs only: the payloads a struct is
decoded from are the one object and otherwise a JSON string, and any other
body is taken to be malformed. -/
def lib : Lib Value String String :=
  { Decode := fun body =>
      if body = "\x7b\"fnname\":\"NoParamsNoReturn\"\x7d" then
        .ok { FnName := "NoParamsNoReturn", Accountability := none, Payload := "", Trigger := none }
      else if body = "\x7b\"fnname\":\"Error\"\x7d" then
        .ok { FnName := "Error", Accountability := none, Payload := "", Trigger := none }
      else if body = "\x7b\"fnname\":\"Chan\"\x7d" then
        .ok { FnName := "Chan", Accountability := none, Payload := "", Trigger := none }
      else if body = "\x7b\"fnname\":\"DoesNotExist\"\x7d" then
        .ok { FnName := "DoesNotExist", Accountability := none, Payload := "", Trigger := none }
      else if body = "\x7b\"fnname\":\"DoesNotExist\",\"payload\":\x7b\"foo\":\"a\",\"bar\":1\x7d\x7d" then
        .ok { FnName := "DoesNotExist", Accountability := none,
              Payload := "\x7b\"foo\":\"a\",\"bar\":1\x7d", Trigger := none }
      else if body = "\x7b\"fnname\":\"ParamWithReturn\",\"payload\":\x7b\"foo\":\"a\",\"bar\":1\x7d\x7d" then
        .ok { FnName := "ParamWithReturn", Accountability := none,
              Payload := "\x7b\"foo\":\"a\",\"bar\":1\x7d", Trigger := none }
      else if body = "\x7b\"fnname\":\"ParamWithReturn\",\"payload\":\"oops\"\x7d" then
        .ok { FnName := "ParamWithReturn", Accountability := none,
              Payload := "\"oops\"", Trigger := none }
      else if body = "\x7b\"fnname\":\"Echo\",\"payload\":\x7b\"Bar\":1\x7d\x7d" then
        .ok { FnName := "Echo", Accountability := none,
              Payload := "\x7b\"Bar\":1\x7d", Trigger := none }
      else if body = "\x7b\"fnname\":\"Accountability\",\"accountability\":\x7b\"user\":\"u1\"\x7d\x7d" then
        .ok { FnName := "Accountability", Accountability := some "\x7b\"user\":\"u1\"\x7d",
              Payload := "", Trigger := none }
      else .error "invalid character",
    Unmarshal := fun data zero =>
      match zero with
      | .fooExample _ _ =>
        if data = "\x7b\"foo\":\"a\",\"bar\":1\x7d" then .ok (.fooExample "a" 1)
        else .error "json: cannot unmarshal string into Go value of type main.fooExample"
      | .Foo _ =>
        if data = "\x7b\"Bar\":1\x7d" then .ok (.Foo 1)
        else .error "json: cannot unmarshal string into Go value of type main.Foo"
      | _ => .error "json: cannot unmarshal",
    Marshal := fun v =>
      match v with
      | .fooExample foo bar =>
        .ok ("\x7b\"foo\":" ++ quote foo ++ ",\"bar\":" ++ toString bar ++ "\x7d")
      | .Foo bar => .ok ("\x7b\"Bar\":" ++ toString bar ++ "\x7d")
      | .string s => .ok (quote s)
      | .chan => .error "json: unsupported type: chan int",
    MarshalString := quote,
    fmtQ := quote,
    fmtT := fun v =>
      match v with
      | .fooExample _ _ => "*main.fooExample"
      | .Foo _ => "*main.Foo"
      | .string _ => "*string"
      | .chan => "*chan int" }

/-- A request with the given headers and body, on the background context. -/
def request (header : http.Header) (body : String) : Request String String :=
  { Header := header, Body := body, ctx := [] }

/-- The envelope that names a function and carries nothing else. -/
def envelope (fnname : String) : invokeRequest String String :=
  { FnName := fnname, Accountability := none, Payload := "", Trigger := none }

/-- The request body that names a function and carries nothing else. -/
def bodyFor (fnname : String) : String :=
  "\x7b\"fnname\":" ++ quote fnname ++ "\x7d"

def bodyParamWithReturn : String :=
  "\x7b\"fnname\":\"ParamWithReturn\",\"payload\":\x7b\"foo\":\"a\",\"bar\":1\x7d\x7d"

def bodyParamWithReturnBad : String :=
  "\x7b\"fnname\":\"ParamWithReturn\",\"payload\":\"oops\"\x7d"

def bodyEcho : String :=
  "\x7b\"fnname\":\"Echo\",\"payload\":\x7b\"Bar\":1\x7d\x7d"

def bodyAccountability : String :=
  "\x7b\"fnname\":\"Accountability\",\"accountability\":\x7b\"user\":\"u1\"\x7d\x7d"

def bodyDoesNotExistPayload : String :=
  "\x7b\"fnname\":\"DoesNotExist\",\"payload\":\x7b\"foo\":\"a\",\"bar\":1\x7d\x7d"

end testapp

namespace callgo

/-! ## Observations on a result -/

/-- The invocations recorded in a trace, in order: name, context, remaining arguments. -/
def invocations {V A T : Type} (trace : List (Event V A T)) :
    List (String × Context A T × List V) :=
  trace.filterMap fun ev =>
    match ev with
    | .call name ctx args => some (name, ctx, args)
    | _ => none

/-- The context the handler passes to the function: the request context extended
with the accountability and then the trigger of the envelope. -/
def callContext {V A T σ : Type} (pkg : Package V A T σ) (r : Request A T)
    (ir : invokeRequest A T) : Context A T :=
  Context.WithValue
    (Context.WithValue r.ctx pkg.accountabilityKey (.accountability ir.Accountability))
    pkg.rawTriggerKey (.rawTrigger ir.Trigger)

/-- The handler gets as far as calling f on the envelope ir, with these arguments
after the context: the payload decoded into a fresh instance of the parameter
type when f has two parameters, no further argument otherwise. -/
def ArgsFor {V A T σ : Type} (lib : Lib V A T) (f : Descriptor V A T σ)
    (ir : invokeRequest A T) (args : List V) : Prop :=
  (f.fv.NumIn = 2 ∧ ∃ p, lib.Unmarshal ir.Payload f.fv.In1Elem = .ok p ∧ args = [p]) ∨
    (f.fv.NumIn ≠ 2 ∧ args = [])

/-- The response written by http.Error on a fresh writer. -/
def errorReply (msg : String) (code : Nat) : http.ResponseWriter :=
  { header := [("X-Content-Type-Options", ["nosniff"]),
               ("Content-Type", ["text/plain; charset=utf-8"])],
    sent := some (code, [("X-Content-Type-Options", ["nosniff"]),
                         ("Content-Type", ["text/plain; charset=utf-8"])]),
    body := msg ++ "\n" }

/-- The response with status 200 and the JSON content type, carrying one line. -/
def jsonReply (line : String) : http.ResponseWriter :=
  { header := [("Content-Type", ["application/json; charset=utf-8"])],
    sent := some (200, [("Content-Type", ["application/json; charset=utf-8"])]),
    body := line ++ "\n" }

/-- The response the handler leaves on a fresh writer for the results of the call:
the error object for a non-nil error, the empty object for the single nil, the
encoded value or the report of the encoding failure for a value with a nil
error, and nothing when the number of results is not one or two. -/
def replyAfterCall {V A T : Type} (lib : Lib V A T) (out : Out V) : http.ResponseWriter :=
  match out with
  | .one (some e) => jsonReply ("\x7b\"error\":" ++ lib.MarshalString e ++ "\x7d")
  | .one none => { header := [], sent := some (200, []), body := "\x7b\x7d\n" }
  | .two _ (some e) => jsonReply ("\x7b\"error\":" ++ lib.MarshalString e ++ "\x7d")
  | .two v none =>
    match lib.Marshal v with
    | .ok b => jsonReply b
    | .error e => errorReply ("cannot encode response data: " ++ e) 500
  | .other _ => http.ResponseWriter.fresh

/-! ## Basic facts -/

theorem http_Error_fresh (msg : String) (code : Nat) :
    http.Error http.ResponseWriter.fresh msg code = errorReply msg code := by
  simp [http.Error, errorReply, http.ResponseWriter.fresh, http.ResponseWriter.HeaderDel,
    http.ResponseWriter.HeaderSet, http.ResponseWriter.WriteHeader, fmt.Fprintln,
    http.ResponseWriter.Write, http.Header.Del, http.Header.Set]

theorem bearer_ne_empty (t : String) : "Bearer " ++ t ≠ "" := by
  intro h
  have hlen := congrArg String.length h
  have h7 : "Bearer ".length = 7 := by decide
  simp [h7] at hlen

theorem Get_of_lookup_none (h : http.Header) (key : String) (hk : List.lookup key h = none) :
    http.Header.Get h key = "" := by
  simp [http.Header.Get, hk]

/-- The authentication test of the handler fails to reject exactly the requests
that pass authentication. -/
theorem auth_passes (cnf : registerOptions) (hdr : http.Header)
    (hauth : cnf.securityToken = "" ∨
      http.Header.Get hdr "Authorization" = "Bearer " ++ cnf.securityToken) :
    ¬ (cnf.securityToken ≠ "" ∧
      http.Header.Get hdr "Authorization" ≠ "Bearer " ++ cnf.securityToken) := by
  rintro ⟨h1, h2⟩
  rcases hauth with h | h
  · exact h1 h
  · exact h2 h

theorem Register_cnf_logger (opts : List RegisterOption) :
    ∃ lg, (Register.cnf opts).logger = some lg := by
  unfold Register.cnf
  simp only
  split
  · exact ⟨Logger.discard, rfl⟩
  · rename_i h
    cases hl : (List.foldl (fun c opt => opt c)
        ({ securityToken := "", logger := none } : registerOptions) opts).logger with
    | none => exact absurd hl h
    | some lg => exact ⟨lg, rfl⟩

theorem http_Error_json (msg : String) (code : Nat) :
    http.Error
        (http.ResponseWriter.fresh.HeaderSet "Content-Type" "application/json; charset=utf-8")
        msg code = errorReply msg code := by
  simp [http.Error, errorReply, http.ResponseWriter.fresh, http.ResponseWriter.HeaderDel,
    http.ResponseWriter.HeaderSet, http.ResponseWriter.WriteHeader, fmt.Fprintln,
    http.ResponseWriter.Write, http.Header.Del, http.Header.Set]

theorem json_Encode_ok (b : String) :
    json.Encode
        (http.ResponseWriter.fresh.HeaderSet "Content-Type" "application/json; charset=utf-8")
        (.ok b) = (jsonReply b, none) := by
  simp [json.Encode, jsonReply, http.ResponseWriter.fresh, http.ResponseWriter.HeaderSet,
    http.ResponseWriter.WriteHeader, http.ResponseWriter.Write, http.Header.Del,
    http.Header.Set, http.StatusOK]

theorem emitUserError_fresh {V A T : Type} (lib : Lib V A T) (cnf : registerOptions)
    (lg : Logger) (ir : invokeRequest A T) (err : GoError) (hlg : cnf.logger = some lg) :
    (emitUserError lib cnf http.ResponseWriter.fresh ir err :
        http.ResponseWriter × List (Event V A T) × Option String) =
      (jsonReply ("\x7b\"error\":" ++ lib.MarshalString err ++ "\x7d"),
        [.log lg .error "callgo: function call error" [("error", err), ("fnname", ir.FnName)]],
        none) := by
  unfold emitUserError
  simp only [hlg, errorResponse.Marshal, json_Encode_ok]

theorem Register_cnf_nil : (Register.cnf []).securityToken = "" := rfl

theorem foldl_WithLogger_token (lgs : List (Option Logger)) (c : registerOptions) :
    (List.foldl (fun c opt => opt c) c (lgs.map WithLogger)).securityToken
      = c.securityToken := by
  induction lgs generalizing c with
  | nil => rfl
  | cons l ls ih => simp only [List.map_cons, List.foldl_cons]; rw [ih]; rfl

theorem Register_cnf_token (c : registerOptions) :
    (if c.logger = none then { c with logger := some Logger.discard } else c).securityToken
      = c.securityToken := by
  split <;> rfl

/-- Options that only set loggers leave the security token empty. -/
theorem Register_cnf_loggers_only (lgs : List (Option Logger)) :
    (Register.cnf (lgs.map WithLogger)).securityToken = "" := by
  unfold Register.cnf
  simp only
  rw [Register_cnf_token, foldl_WithLogger_token]

/-- The token in force is the one of the last WithSecurityToken option: whatever
precedes it, and whatever logger options follow it. -/
theorem Register_cnf_last_token (opts : List RegisterOption) (t : String)
    (lgs : List (Option Logger)) :
    (Register.cnf (opts ++ WithSecurityToken t :: lgs.map WithLogger)).securityToken = t := by
  unfold Register.cnf
  simp only
  rw [Register_cnf_token, List.foldl_append, List.foldl_cons, foldl_WithLogger_token]
  rfl

/-- Without a security token the handler never sends status 401. -/
theorem callHandler_sent_ne_401 {V A T σ : Type} (lib : Lib V A T) (pkg : Package V A T σ)
    (cnf : registerOptions) (r : Request A T) (s : σ) (htoken : cnf.securityToken = "")
    (headers : http.Header) :
    (callHandler lib pkg cnf http.ResponseWriter.fresh r s).w.sent ≠ some (401, headers) := by
  unfold callHandler
  rw [if_neg (auth_passes cnf r.Header (Or.inl htoken))]
  cases hd : lib.Decode r.Body with
  | error e => simp [http_Error_fresh, errorReply, http.StatusBadRequest]
  | ok ir =>
    cases hl : cnf.logger with
    | none => simp [http.ResponseWriter.fresh]
    | some lg =>
      cases hk : pkg.funcs.lookup ir.FnName with
      | none => simp [hk, http_Error_fresh, errorReply, http.StatusNotFound]
      | some f =>
        have key : ∀ args : List V,
            (match f.fv.Call
                (Context.WithValue
                  (Context.WithValue r.ctx pkg.accountabilityKey
                    (.accountability ir.Accountability))
                  pkg.rawTriggerKey (.rawTrigger ir.Trigger)) args s with
              | (.one (some err), s1) =>
                ({ w := (emitUserError lib cnf http.ResponseWriter.fresh ir err).1,
                   trace := [], state := s1, panicked := none } : Result V A T σ)
              | (.one none, s1) =>
                { w := fmt.Fprintln http.ResponseWriter.fresh "\x7b\x7d",
                  trace := [], state := s1, panicked := none }
              | (.two _ (some err), s1) =>
                { w := (emitUserError lib cnf http.ResponseWriter.fresh ir err).1,
                  trace := [], state := s1, panicked := none }
              | (.two val none, s1) =>
                match json.Encode
                    (http.ResponseWriter.fresh.HeaderSet "Content-Type"
                      "application/json; charset=utf-8") (lib.Marshal val) with
                | (w2, some e) =>
                  { w := http.Error w2 ("cannot encode response data: " ++ e)
                      http.StatusInternalServerError,
                    trace := [], state := s1, panicked := none }
                | (w2, none) => { w := w2, trace := [], state := s1, panicked := none }
              | (.other _, s1) =>
                { w := http.ResponseWriter.fresh, trace := [], state := s1,
                  panicked := none }).w.sent ≠ some (401, headers) := by
          intro args
          rcases hc : f.fv.Call
              (Context.WithValue
                (Context.WithValue r.ctx pkg.accountabilityKey
                  (.accountability ir.Accountability))
                pkg.rawTriggerKey (.rawTrigger ir.Trigger)) args s with ⟨out, s1⟩
          rcases out with (_ | err) | ⟨val, (_ | err)⟩ | n
          · simp [fmt.Fprintln, http.ResponseWriter.Write, http.ResponseWriter.WriteHeader,
              http.ResponseWriter.fresh, http.StatusOK]
          · simp [emitUserError_fresh lib cnf lg ir err hl, jsonReply]
          · cases hm : lib.Marshal val with
            | error e =>
              simp [hm, json.Encode, http_Error_json, errorReply,
                http.StatusInternalServerError]
            | ok b => simp [hm, json_Encode_ok, jsonReply]
          · simp [emitUserError_fresh lib cnf lg ir err hl, jsonReply]
          · simp [http.ResponseWriter.fresh]
        by_cases hin : f.fv.NumIn = 2
        · cases hu : lib.Unmarshal ir.Payload f.fv.In1Elem with
          | error e =>
            simp [hk, hin, hu, http_Error_fresh, errorReply, http.StatusBadRequest]
          | ok p =>
            have := key [p]
            simp only [hk, hin, hu, if_true]
            revert this
            split <;> simp
            split <;> simp
        · have := key []
          simp only [hk, hin, if_false]
          revert this
          split <;> simp
          split <;> simp

/-! ## The claims -/

/-- C1: when a non-empty security token t is configured and the Authorization header of the
request is absent or is not exactly "Bearer " followed by t, the handler answers 401 with the
fixed line "wrong authorization token" and stops: nothing is recorded in the trace (the body is
not read, the registry is not indexed, nothing is called), the user state is untouched, and the
result is the same for every body, library and registry. -/
theorem callHandler_unauthorized {V A T σ : Type} (lib : Lib V A T) (pkg : Package V A T σ)
    (cnf : registerOptions) (t : String) (r : Request A T) (s : σ)
    (htoken : cnf.securityToken = t) (ht : t ≠ "")
    (hauth : List.lookup "Authorization" r.Header = none ∨
      http.Header.Get r.Header "Authorization" ≠ "Bearer " ++ t) :
    callHandler lib pkg cnf http.ResponseWriter.fresh r s =
        { w := errorReply "wrong authorization token" 401,
          trace := [], state := s, panicked := none } ∧
      ∀ (body : String),
        callHandler lib pkg cnf http.ResponseWriter.fresh { r with Body := body } s =
          callHandler lib pkg cnf http.ResponseWriter.fresh r s := by
  have hne : http.Header.Get r.Header "Authorization" ≠ "Bearer " ++ t := by
    rcases hauth with h | h
    · rw [Get_of_lookup_none _ _ h]
      exact fun e => bearer_ne_empty t e.symm
    · exact h
  subst htoken
  have hcond : cnf.securityToken ≠ "" ∧
      http.Header.Get r.Header "Authorization" ≠ "Bearer " ++ cnf.securityToken := ⟨ht, hne⟩
  constructor
  · unfold callHandler
    rw [if_pos hcond, http_Error_fresh]
    rfl
  · intro body
    unfold callHandler
    rw [if_pos hcond, if_pos hcond]

/-- C7: a request that passes authentication and whose body json cannot decode as an envelope
gets status 400 with the line "invalid request"; the trace holds the read of the body and
nothing else (no registry lookup, no call), the user state is untouched, and the result does
not depend on the registry. -/
theorem callHandler_invalid_envelope {V A T σ : Type} (lib : Lib V A T) (pkg : Package V A T σ)
    (cnf : registerOptions) (r : Request A T) (s : σ) (e : GoError)
    (hauth : cnf.securityToken = "" ∨
      http.Header.Get r.Header "Authorization" = "Bearer " ++ cnf.securityToken)
    (hdec : lib.Decode r.Body = .error e) :
    callHandler lib pkg cnf http.ResponseWriter.fresh r s =
      { w := errorReply "invalid request" 400,
        trace := [.readBody], state := s, panicked := none } := by
  unfold callHandler
  rw [if_neg (auth_passes cnf r.Header hauth)]
  simp only [hdec, http_Error_fresh]
  rfl

/-- C4: a request that passes authentication and whose envelope names a function that is not
a key of the registry gets status 404 with the line "function NAME not found", NAME being the
name as printed by the verb %q; nothing is called and the user state is untouched. A second
such request naming the same function gets the same response, whatever its payload,
accountability and trigger. -/
theorem callHandler_not_found {V A T σ : Type} (lib : Lib V A T) (pkg : Package V A T σ)
    (opts : List RegisterOption) (r r2 : Request A T) (s : σ) (ir ir2 : invokeRequest A T)
    (hauth : (Register.cnf opts).securityToken = "" ∨
      http.Header.Get r.Header "Authorization" = "Bearer " ++ (Register.cnf opts).securityToken)
    (hdec : lib.Decode r.Body = .ok ir)
    (hkey : pkg.funcs.lookup ir.FnName = none)
    (hauth2 : (Register.cnf opts).securityToken = "" ∨
      http.Header.Get r2.Header "Authorization" = "Bearer " ++ (Register.cnf opts).securityToken)
    (hdec2 : lib.Decode r2.Body = .ok ir2)
    (hname : ir2.FnName = ir.FnName) :
    (callHandler lib pkg (Register.cnf opts) http.ResponseWriter.fresh r s).w =
        errorReply ("function " ++ lib.fmtQ ir.FnName ++ " not found") 404 ∧
      invocations (callHandler lib pkg (Register.cnf opts) http.ResponseWriter.fresh r s).trace
        = [] ∧
      (callHandler lib pkg (Register.cnf opts) http.ResponseWriter.fresh r s).state = s ∧
      (callHandler lib pkg (Register.cnf opts) http.ResponseWriter.fresh r s).panicked = none ∧
      (callHandler lib pkg (Register.cnf opts) http.ResponseWriter.fresh r2 s).w =
        (callHandler lib pkg (Register.cnf opts) http.ResponseWriter.fresh r s).w := by
  obtain ⟨lg, hlg⟩ := Register_cnf_logger opts
  have hkey2 : pkg.funcs.lookup ir2.FnName = none := by rw [hname]; exact hkey
  have h1 : callHandler lib pkg (Register.cnf opts) http.ResponseWriter.fresh r s =
      { w := errorReply ("function " ++ lib.fmtQ ir.FnName ++ " not found") 404,
        trace := [.readBody, .log lg .info "Function called" [("fnname", ir.FnName)],
          .lookup ir.FnName],
        state := s, panicked := none } := by
    unfold callHandler
    rw [if_neg (auth_passes _ _ hauth)]
    simp only [hdec, hlg, hkey, http_Error_fresh]
    rfl
  have h2 : (callHandler lib pkg (Register.cnf opts) http.ResponseWriter.fresh r2 s).w =
      errorReply ("function " ++ lib.fmtQ ir.FnName ++ " not found") 404 := by
    unfold callHandler
    rw [if_neg (auth_passes _ _ hauth2)]
    simp only [hdec2, hlg, hkey2, http_Error_fresh]
    rw [hname]
    rfl
  rw [h2, h1]
  simp [invocations]

/-- C3: a request that passes authentication, whose envelope names a registered function with
two parameters and whose payload json fails to decode into a fresh instance of the parameter
type gets status 400 with the line "cannot decode request payload: " followed by the decode
error; the function is not called and the user state is untouched. -/
theorem callHandler_payload_rejected {V A T σ : Type} (lib : Lib V A T)
    (pkg : Package V A T σ) (opts : List RegisterOption) (r : Request A T) (s : σ)
    (ir : invokeRequest A T) (f : Descriptor V A T σ) (e : GoError)
    (hauth : (Register.cnf opts).securityToken = "" ∨
      http.Header.Get r.Header "Authorization" = "Bearer " ++ (Register.cnf opts).securityToken)
    (hdec : lib.Decode r.Body = .ok ir)
    (hf : pkg.funcs.lookup ir.FnName = some f)
    (hin : f.fv.NumIn = 2)
    (hpayload : lib.Unmarshal ir.Payload f.fv.In1Elem = .error e) :
    (callHandler lib pkg (Register.cnf opts) http.ResponseWriter.fresh r s).w =
        errorReply ("cannot decode request payload: " ++ e) 400 ∧
      invocations (callHandler lib pkg (Register.cnf opts) http.ResponseWriter.fresh r s).trace
        = [] ∧
      (callHandler lib pkg (Register.cnf opts) http.ResponseWriter.fresh r s).state = s ∧
      (callHandler lib pkg (Register.cnf opts) http.ResponseWriter.fresh r s).panicked
        = none := by
  obtain ⟨lg, hlg⟩ := Register_cnf_logger opts
  unfold callHandler
  rw [if_neg (auth_passes _ _ hauth)]
  simp only [hdec, hlg, hf, hin, hpayload, http_Error_fresh, if_true]
  simp [invocations, http.StatusBadRequest]

/-- C2: when the function named by an authenticated, well-formed request is called and returns
a non-nil error e, in the error-only shape or next to a value, the handler answers with status
200, Content-Type application/json; charset=utf-8 and the one line holding the JSON object
whose single field "error" is the JSON string for the message of e; the returned value has no
part in the response. -/
theorem callHandler_user_error {V A T σ : Type} (lib : Lib V A T) (pkg : Package V A T σ)
    (opts : List RegisterOption) (r : Request A T) (s s1 : σ) (ir : invokeRequest A T)
    (f : Descriptor V A T σ) (args : List V) (out : Out V) (e : GoError)
    (hauth : (Register.cnf opts).securityToken = "" ∨
      http.Header.Get r.Header "Authorization" = "Bearer " ++ (Register.cnf opts).securityToken)
    (hdec : lib.Decode r.Body = .ok ir)
    (hf : pkg.funcs.lookup ir.FnName = some f)
    (hargs : ArgsFor lib f ir args)
    (hcall : f.fv.Call (callContext pkg r ir) args s = (out, s1))
    (hout : out = .one (some e) ∨ ∃ v, out = .two v (some e)) :
    (callHandler lib pkg (Register.cnf opts) http.ResponseWriter.fresh r s).w =
        { header := [("Content-Type", ["application/json; charset=utf-8"])],
          sent := some (200, [("Content-Type", ["application/json; charset=utf-8"])]),
          body := "\x7b\"error\":" ++ lib.MarshalString e ++ "\x7d" ++ "\n" } ∧
      (callHandler lib pkg (Register.cnf opts) http.ResponseWriter.fresh r s).state = s1 ∧
      (callHandler lib pkg (Register.cnf opts) http.ResponseWriter.fresh r s).panicked
        = none := by
  obtain ⟨lg, hlg⟩ := Register_cnf_logger opts
  unfold callContext at hcall
  unfold callHandler
  rw [if_neg (auth_passes _ _ hauth)]
  rcases hargs with ⟨hin, p, hp, rfl⟩ | ⟨hin, rfl⟩
  · rcases hout with rfl | ⟨v, rfl⟩ <;>
      simp [hdec, hlg, hf, hin, hp, hcall, emitUserError_fresh lib _ lg ir e hlg, jsonReply]
  · rcases hout with rfl | ⟨v, rfl⟩ <;>
      simp [hdec, hlg, hf, hin, hcall, emitUserError_fresh lib _ lg ir e hlg, jsonReply]

/-- C5: when the function named by an authenticated, well-formed request takes the context
alone, is called and returns the single result nil, the handler answers with status 200 and
the body is the two characters of the empty object followed by a newline, nothing else. -/
theorem callHandler_empty_success {V A T σ : Type} (lib : Lib V A T) (pkg : Package V A T σ)
    (opts : List RegisterOption) (r : Request A T) (s s1 : σ) (ir : invokeRequest A T)
    (f : Descriptor V A T σ)
    (hauth : (Register.cnf opts).securityToken = "" ∨
      http.Header.Get r.Header "Authorization" = "Bearer " ++ (Register.cnf opts).securityToken)
    (hdec : lib.Decode r.Body = .ok ir)
    (hf : pkg.funcs.lookup ir.FnName = some f)
    (hin : f.fv.NumIn ≠ 2)
    (hcall : f.fv.Call (callContext pkg r ir) [] s = (.one none, s1)) :
    (callHandler lib pkg (Register.cnf opts) http.ResponseWriter.fresh r s).w =
        { header := [], sent := some (200, []), body := "\x7b\x7d\n" } ∧
      (callHandler lib pkg (Register.cnf opts) http.ResponseWriter.fresh r s).state = s1 ∧
      (callHandler lib pkg (Register.cnf opts) http.ResponseWriter.fresh r s).panicked
        = none := by
  obtain ⟨lg, hlg⟩ := Register_cnf_logger opts
  unfold callContext at hcall
  unfold callHandler
  rw [if_neg (auth_passes _ _ hauth)]
  simp [hdec, hlg, hf, hin, hcall, fmt.Fprintln, http.ResponseWriter.Write,
    http.ResponseWriter.WriteHeader, http.ResponseWriter.fresh, http.StatusOK]

/-- C6: when the function named by an authenticated, well-formed request is called, returns a
value v with a nil error, and json marshals v to b, the handler answers with status 200,
Content-Type application/json; charset=utf-8 and the body b followed by the newline that the
encoder appends. The one call made is the function on the request's call context and, for a
function with two parameters, on the payload decoded into a fresh instance of its parameter
type, so v is the value of that call. -/
theorem callHandler_value_success {V A T σ : Type} (lib : Lib V A T) (pkg : Package V A T σ)
    (opts : List RegisterOption) (r : Request A T) (s s1 : σ) (ir : invokeRequest A T)
    (f : Descriptor V A T σ) (args : List V) (v : V) (b : String)
    (hauth : (Register.cnf opts).securityToken = "" ∨
      http.Header.Get r.Header "Authorization" = "Bearer " ++ (Register.cnf opts).securityToken)
    (hdec : lib.Decode r.Body = .ok ir)
    (hf : pkg.funcs.lookup ir.FnName = some f)
    (hargs : ArgsFor lib f ir args)
    (hcall : f.fv.Call (callContext pkg r ir) args s = (.two v none, s1))
    (hjson : lib.Marshal v = .ok b) :
    (callHandler lib pkg (Register.cnf opts) http.ResponseWriter.fresh r s).w =
        { header := [("Content-Type", ["application/json; charset=utf-8"])],
          sent := some (200, [("Content-Type", ["application/json; charset=utf-8"])]),
          body := b ++ "\n" } ∧
      invocations (callHandler lib pkg (Register.cnf opts) http.ResponseWriter.fresh r s).trace
        = [(ir.FnName, callContext pkg r ir, args)] ∧
      (f.fv.NumIn = 2 →
        ∃ p, lib.Unmarshal ir.Payload f.fv.In1Elem = .ok p ∧
          f.fv.Call (callContext pkg r ir) [p] s = (.two v none, s1)) ∧
      (callHandler lib pkg (Register.cnf opts) http.ResponseWriter.fresh r s).state = s1 ∧
      (callHandler lib pkg (Register.cnf opts) http.ResponseWriter.fresh r s).panicked
        = none := by
  obtain ⟨lg, hlg⟩ := Register_cnf_logger opts
  have hone : f.fv.NumIn = 2 →
      ∃ p, lib.Unmarshal ir.Payload f.fv.In1Elem = .ok p ∧
        f.fv.Call (callContext pkg r ir) [p] s = (.two v none, s1) := by
    intro h2
    rcases hargs with ⟨_, p, hp, rfl⟩ | ⟨hin, _⟩
    · exact ⟨p, hp, hcall⟩
    · exact absurd h2 hin
  refine ⟨?_, ?_, hone, ?_, ?_⟩ <;>
  · simp only [callContext] at hcall ⊢
    unfold callHandler
    rw [if_neg (auth_passes _ _ hauth)]
    rcases hargs with ⟨hin, p, hp, rfl⟩ | ⟨hin, rfl⟩
    · simp [hdec, hlg, hf, hin, hp, hcall, hjson, json_Encode_ok, jsonReply, invocations]
    · simp [hdec, hlg, hf, hin, hcall, hjson, json_Encode_ok, jsonReply, invocations]

/-- C8: when the function named by an authenticated, well-formed request is called, returns a
value with a nil error, and json reports the error e for that value, the handler answers with
status 500 and the line "cannot encode response data: " followed by e, as plain text; the
response is not one with status 200 and the JSON content type, whatever its body. -/
theorem callHandler_encode_failure {V A T σ : Type} (lib : Lib V A T) (pkg : Package V A T σ)
    (opts : List RegisterOption) (r : Request A T) (s s1 : σ) (ir : invokeRequest A T)
    (f : Descriptor V A T σ) (args : List V) (v : V) (e : GoError)
    (hauth : (Register.cnf opts).securityToken = "" ∨
      http.Header.Get r.Header "Authorization" = "Bearer " ++ (Register.cnf opts).securityToken)
    (hdec : lib.Decode r.Body = .ok ir)
    (hf : pkg.funcs.lookup ir.FnName = some f)
    (hargs : ArgsFor lib f ir args)
    (hcall : f.fv.Call (callContext pkg r ir) args s = (.two v none, s1))
    (hjson : lib.Marshal v = .error e) :
    (callHandler lib pkg (Register.cnf opts) http.ResponseWriter.fresh r s).w =
        { header := [("X-Content-Type-Options", ["nosniff"]),
                     ("Content-Type", ["text/plain; charset=utf-8"])],
          sent := some (500, [("X-Content-Type-Options", ["nosniff"]),
                              ("Content-Type", ["text/plain; charset=utf-8"])]),
          body := "cannot encode response data: " ++ e ++ "\n" } ∧
      (∀ line : String,
        (callHandler lib pkg (Register.cnf opts) http.ResponseWriter.fresh r s).w ≠
          jsonReply line) ∧
      (callHandler lib pkg (Register.cnf opts) http.ResponseWriter.fresh r s).state = s1 ∧
      (callHandler lib pkg (Register.cnf opts) http.ResponseWriter.fresh r s).panicked
        = none := by
  obtain ⟨lg, hlg⟩ := Register_cnf_logger opts
  have hw : (callHandler lib pkg (Register.cnf opts) http.ResponseWriter.fresh r s).w =
      errorReply ("cannot encode response data: " ++ e) 500 := by
    unfold callContext at hcall
    unfold callHandler
    rw [if_neg (auth_passes _ _ hauth)]
    rcases hargs with ⟨hin, p, hp, rfl⟩ | ⟨hin, rfl⟩
    · simp [hdec, hlg, hf, hin, hp, hcall, hjson, json.Encode, http_Error_json,
        http.StatusInternalServerError]
    · simp [hdec, hlg, hf, hin, hcall, hjson, json.Encode, http_Error_json,
        http.StatusInternalServerError]
  refine ⟨?_, ?_, ?_, ?_⟩
  · rw [hw]; rfl
  · intro line
    rw [hw]
    intro h
    have hs := congrArg http.ResponseWriter.sent h
    simp [errorReply, jsonReply] at hs
  all_goals
    unfold callContext at hcall
    unfold callHandler
    rw [if_neg (auth_passes _ _ hauth)]
    rcases hargs with ⟨hin, p, hp, rfl⟩ | ⟨hin, rfl⟩
    · simp [hdec, hlg, hf, hin, hp, hcall, hjson, json.Encode]
    · simp [hdec, hlg, hf, hin, hcall, hjson, json.Encode]

/-- C9: for a request that reaches invocation (it passes authentication, its envelope decodes,
names a registered function, and the payload decodes when the function takes one), the handler
calls the function exactly once, on the request context extended with the accountability and
the trigger of the envelope (an expression in which the payload does not occur) and on the
arguments: the user state it returns is the state that call leaves, the response is the one for
the results of that call, and the trace records that one call. The context of the call yields
the trigger of the envelope under rawTriggerKey and, when the two keys differ, the
accountability of the envelope under accountabilityKey, both as decoded. -/
theorem callHandler_call_context {V A T σ : Type} (lib : Lib V A T) (pkg : Package V A T σ)
    (opts : List RegisterOption) (r : Request A T) (s : σ) (ir : invokeRequest A T)
    (f : Descriptor V A T σ) (args : List V)
    (hauth : (Register.cnf opts).securityToken = "" ∨
      http.Header.Get r.Header "Authorization" = "Bearer " ++ (Register.cnf opts).securityToken)
    (hdec : lib.Decode r.Body = .ok ir)
    (hf : pkg.funcs.lookup ir.FnName = some f)
    (hargs : ArgsFor lib f ir args) :
    (callHandler lib pkg (Register.cnf opts) http.ResponseWriter.fresh r s).state =
        (f.fv.Call
          (Context.WithValue
            (Context.WithValue r.ctx pkg.accountabilityKey
              (.accountability ir.Accountability))
            pkg.rawTriggerKey (.rawTrigger ir.Trigger))
          args s).2 ∧
      (callHandler lib pkg (Register.cnf opts) http.ResponseWriter.fresh r s).w =
        replyAfterCall lib
          (f.fv.Call
            (Context.WithValue
              (Context.WithValue r.ctx pkg.accountabilityKey
                (.accountability ir.Accountability))
              pkg.rawTriggerKey (.rawTrigger ir.Trigger))
            args s).1 ∧
      invocations (callHandler lib pkg (Register.cnf opts) http.ResponseWriter.fresh r s).trace =
        [(ir.FnName,
          Context.WithValue
            (Context.WithValue r.ctx pkg.accountabilityKey
              (.accountability ir.Accountability))
            pkg.rawTriggerKey (.rawTrigger ir.Trigger),
          args)] ∧
      Context.Value
          (Context.WithValue
            (Context.WithValue r.ctx pkg.accountabilityKey
              (.accountability ir.Accountability))
            pkg.rawTriggerKey (.rawTrigger ir.Trigger))
          pkg.rawTriggerKey = some (.rawTrigger ir.Trigger) ∧
      (pkg.accountabilityKey ≠ pkg.rawTriggerKey →
        Context.Value
            (Context.WithValue
              (Context.WithValue r.ctx pkg.accountabilityKey
                (.accountability ir.Accountability))
              pkg.rawTriggerKey (.rawTrigger ir.Trigger))
            pkg.accountabilityKey = some (.accountability ir.Accountability)) := by
  obtain ⟨lg, hlg⟩ := Register_cnf_logger opts
  have hrun : ∀ (out : Out V) (s1 : σ),
      f.fv.Call
          (Context.WithValue
            (Context.WithValue r.ctx pkg.accountabilityKey
              (.accountability ir.Accountability))
            pkg.rawTriggerKey (.rawTrigger ir.Trigger))
          args s = (out, s1) →
        (callHandler lib pkg (Register.cnf opts) http.ResponseWriter.fresh r s).state = s1 ∧
          (callHandler lib pkg (Register.cnf opts) http.ResponseWriter.fresh r s).w =
            replyAfterCall lib out ∧
          invocations
              (callHandler lib pkg (Register.cnf opts) http.ResponseWriter.fresh r s).trace =
            [(ir.FnName,
              Context.WithValue
                (Context.WithValue r.ctx pkg.accountabilityKey
                  (.accountability ir.Accountability))
                pkg.rawTriggerKey (.rawTrigger ir.Trigger),
              args)] := by
    intro out s1 hcall
    unfold callHandler
    rw [if_neg (auth_passes _ _ hauth)]
    rcases hargs with ⟨hin, p, hp, rfl⟩ | ⟨hin, rfl⟩
    · rcases out with (_ | err) | ⟨val, (_ | err)⟩ | n
      · simp [hdec, hlg, hf, hin, hp, hcall, invocations, replyAfterCall, fmt.Fprintln,
          http.ResponseWriter.Write, http.ResponseWriter.WriteHeader,
          http.ResponseWriter.fresh, http.StatusOK]
      · simp [hdec, hlg, hf, hin, hp, hcall, invocations, replyAfterCall,
          emitUserError_fresh lib _ lg ir err hlg]
      · cases hm : lib.Marshal val with
        | error e =>
          simp [hdec, hlg, hf, hin, hp, hcall, hm, invocations, replyAfterCall, json.Encode,
            http_Error_json, http.StatusInternalServerError]
        | ok b =>
          simp [hdec, hlg, hf, hin, hp, hcall, hm, invocations, replyAfterCall,
            json_Encode_ok]
      · simp [hdec, hlg, hf, hin, hp, hcall, invocations, replyAfterCall,
          emitUserError_fresh lib _ lg ir err hlg]
      · simp [hdec, hlg, hf, hin, hp, hcall, invocations, replyAfterCall]
    · rcases out with (_ | err) | ⟨val, (_ | err)⟩ | n
      · simp [hdec, hlg, hf, hin, hcall, invocations, replyAfterCall, fmt.Fprintln,
          http.ResponseWriter.Write, http.ResponseWriter.WriteHeader,
          http.ResponseWriter.fresh, http.StatusOK]
      · simp [hdec, hlg, hf, hin, hcall, invocations, replyAfterCall,
          emitUserError_fresh lib _ lg ir err hlg]
      · cases hm : lib.Marshal val with
        | error e =>
          simp [hdec, hlg, hf, hin, hcall, hm, invocations, replyAfterCall, json.Encode,
            http_Error_json, http.StatusInternalServerError]
        | ok b =>
          simp [hdec, hlg, hf, hin, hcall, hm, invocations, replyAfterCall, json_Encode_ok]
      · simp [hdec, hlg, hf, hin, hcall, invocations, replyAfterCall,
          emitUserError_fresh lib _ lg ir err hlg]
      · simp [hdec, hlg, hf, hin, hcall, invocations, replyAfterCall]
  obtain ⟨h1, h2, h3⟩ := hrun _ _ rfl
  refine ⟨h1, h2, h3, ?_, ?_⟩
  · simp [Context.Value, Context.WithValue, List.lookup]
  · intro hkeys
    have hb : (pkg.accountabilityKey == pkg.rawTriggerKey) = false := by simpa using hkeys
    simp [Context.Value, Context.WithValue, List.lookup, hb]

/-- C10: when the security token of the options is empty, the handler does not look at the
Authorization header: replacing the headers of a request by any others leaves the whole result
unchanged (response, trace with its invocation, user state, panic), and no request is answered
with status 401. -/
theorem callHandler_no_token {V A T σ : Type} (lib : Lib V A T) (pkg : Package V A T σ)
    (cnf : registerOptions) (r : Request A T) (hdr : http.Header) (s : σ)
    (htoken : cnf.securityToken = "") :
    callHandler lib pkg cnf http.ResponseWriter.fresh { r with Header := hdr } s =
        callHandler lib pkg cnf http.ResponseWriter.fresh r s ∧
      ∀ headers : http.Header,
        (callHandler lib pkg cnf http.ResponseWriter.fresh r s).w.sent
          ≠ some (401, headers) := by
  refine ⟨?_, callHandler_sent_ne_401 lib pkg cnf r s htoken⟩
  unfold callHandler
  rw [if_neg (auth_passes cnf hdr (Or.inl htoken)),
    if_neg (auth_passes cnf r.Header (Or.inl htoken))]

/-! ## The claims on the test application -/

/-- C1 on the scenario of the shared secret "s3cr3t" and a request without Authorization
header, whose body is not JSON. -/
theorem callHandler_unauthorized_witness :
    (Register.cnf [WithSecurityToken "s3cr3t"]).securityToken = "s3cr3t" ∧
      "s3cr3t" ≠ "" ∧
      List.lookup "Authorization" (testapp.request [] "not json").Header = none ∧
      callHandler testapp.lib testapp.pkg (Register.cnf [WithSecurityToken "s3cr3t"])
          http.ResponseWriter.fresh (testapp.request [] "not json") [] =
        { w := errorReply "wrong authorization token" 401,
          trace := [], state := [], panicked := none } ∧
      ∀ (body : String),
        callHandler testapp.lib testapp.pkg (Register.cnf [WithSecurityToken "s3cr3t"])
            http.ResponseWriter.fresh
            { testapp.request [] "not json" with Body := body } [] =
          callHandler testapp.lib testapp.pkg (Register.cnf [WithSecurityToken "s3cr3t"])
            http.ResponseWriter.fresh (testapp.request [] "not json") [] :=
  ⟨rfl, by decide, rfl,
    callHandler_unauthorized testapp.lib testapp.pkg (Register.cnf [WithSecurityToken "s3cr3t"])
      "s3cr3t" (testapp.request [] "not json") [] rfl (by decide) (Or.inl rfl)⟩

/-- C7 on a request with the right credential and a body that is not JSON. -/
theorem callHandler_invalid_envelope_witness :
    http.Header.Get (testapp.request [("Authorization", ["Bearer s3cr3t"])] "not json").Header
        "Authorization" = "Bearer " ++ (Register.cnf [WithSecurityToken "s3cr3t"]).securityToken ∧
      testapp.lib.Decode (testapp.request [("Authorization", ["Bearer s3cr3t"])] "not json").Body
        = .error "invalid character" ∧
      callHandler testapp.lib testapp.pkg (Register.cnf [WithSecurityToken "s3cr3t"])
          http.ResponseWriter.fresh
          (testapp.request [("Authorization", ["Bearer s3cr3t"])] "not json") [] =
        { w := errorReply "invalid request" 400,
          trace := [.readBody], state := [], panicked := none } :=
  ⟨by decide, rfl,
    callHandler_invalid_envelope testapp.lib testapp.pkg
      (Register.cnf [WithSecurityToken "s3cr3t"])
      (testapp.request [("Authorization", ["Bearer s3cr3t"])] "not json") []
      "invalid character" (Or.inr (by decide)) rfl⟩

/-- C4 on two requests for DoesNotExist, without and with a payload. -/
theorem callHandler_not_found_witness :
    testapp.lib.Decode (testapp.request [] (testapp.bodyFor "DoesNotExist")).Body
        = .ok (testapp.envelope "DoesNotExist") ∧
      testapp.pkg.funcs.lookup "DoesNotExist" = none ∧
      (callHandler testapp.lib testapp.pkg (Register.cnf []) http.ResponseWriter.fresh
          (testapp.request [] (testapp.bodyFor "DoesNotExist")) []).w =
        errorReply "function \"DoesNotExist\" not found" 404 ∧
      (callHandler testapp.lib testapp.pkg (Register.cnf []) http.ResponseWriter.fresh
          (testapp.request [] testapp.bodyDoesNotExistPayload) []).w =
        (callHandler testapp.lib testapp.pkg (Register.cnf []) http.ResponseWriter.fresh
          (testapp.request [] (testapp.bodyFor "DoesNotExist")) []).w :=
  have h := callHandler_not_found testapp.lib testapp.pkg []
    (testapp.request [] (testapp.bodyFor "DoesNotExist"))
    (testapp.request [] testapp.bodyDoesNotExistPayload) []
    (testapp.envelope "DoesNotExist")
    { FnName := "DoesNotExist", Accountability := none,
      Payload := "\x7b\"foo\":\"a\",\"bar\":1\x7d", Trigger := none }
    (Or.inl rfl) rfl rfl (Or.inl rfl) rfl rfl
  ⟨rfl, rfl, h.1, h.2.2.2.2⟩

/-- C3 on ParamWithReturn called with a string as payload. -/
theorem callHandler_payload_rejected_witness :
    testapp.pkg.funcs.lookup "ParamWithReturn" = some testapp.paramWithReturnFn ∧
      testapp.paramWithReturnFn.fv.NumIn = 2 ∧
      testapp.lib.Unmarshal "\"oops\"" testapp.paramWithReturnFn.fv.In1Elem =
        .error "json: cannot unmarshal string into Go value of type main.fooExample" ∧
      (callHandler testapp.lib testapp.pkg (Register.cnf []) http.ResponseWriter.fresh
          (testapp.request [] testapp.bodyParamWithReturnBad) []).w =
        errorReply ("cannot decode request payload: " ++
          "json: cannot unmarshal string into Go value of type main.fooExample") 400 ∧
      invocations (callHandler testapp.lib testapp.pkg (Register.cnf [])
          http.ResponseWriter.fresh (testapp.request [] testapp.bodyParamWithReturnBad) []).trace
        = [] ∧
      (callHandler testapp.lib testapp.pkg (Register.cnf []) http.ResponseWriter.fresh
          (testapp.request [] testapp.bodyParamWithReturnBad) []).state = [] :=
  have h := callHandler_payload_rejected testapp.lib testapp.pkg []
    (testapp.request [] testapp.bodyParamWithReturnBad) []
    { FnName := "ParamWithReturn", Accountability := none, Payload := "\"oops\"",
      Trigger := none }
    testapp.paramWithReturnFn
    "json: cannot unmarshal string into Go value of type main.fooExample"
    (Or.inl rfl) rfl rfl rfl rfl
  ⟨rfl, rfl, rfl, h.1, h.2.1, h.2.2.1⟩

/-- C2 on the function Error of the test application. -/
theorem callHandler_user_error_witness :
    testapp.pkg.funcs.lookup "Error" = some testapp.errorFn ∧
      testapp.errorFn.fv.Call
          (callContext testapp.pkg (testapp.request [] (testapp.bodyFor "Error"))
            (testapp.envelope "Error")) [] []
        = (.one (some "error message"), []) ∧
      (callHandler testapp.lib testapp.pkg (Register.cnf []) http.ResponseWriter.fresh
          (testapp.request [] (testapp.bodyFor "Error")) []).w =
        { header := [("Content-Type", ["application/json; charset=utf-8"])],
          sent := some (200, [("Content-Type", ["application/json; charset=utf-8"])]),
          body := "\x7b\"error\":\"error message\"\x7d\n" } :=
  ⟨rfl, rfl,
    (callHandler_user_error testapp.lib testapp.pkg []
      (testapp.request [] (testapp.bodyFor "Error")) [] [] (testapp.envelope "Error")
      testapp.errorFn [] (.one (some "error message")) "error message"
      (Or.inl rfl) rfl rfl (Or.inr ⟨by decide, rfl⟩) rfl (Or.inl rfl)).1⟩

/-- C5 on the function NoParamsNoReturn of the test application. -/
theorem callHandler_empty_success_witness :
    testapp.pkg.funcs.lookup "NoParamsNoReturn" = some testapp.noParamsNoReturnFn ∧
      testapp.noParamsNoReturnFn.fv.NumIn ≠ 2 ∧
      (callHandler testapp.lib testapp.pkg (Register.cnf []) http.ResponseWriter.fresh
          (testapp.request [] (testapp.bodyFor "NoParamsNoReturn")) []).w =
        { header := [], sent := some (200, []), body := "\x7b\x7d\n" } ∧
      (callHandler testapp.lib testapp.pkg (Register.cnf []) http.ResponseWriter.fresh
          (testapp.request [] (testapp.bodyFor "NoParamsNoReturn")) []).state =
        ["NoParamsNoReturn called"] :=
  have h := callHandler_empty_success testapp.lib testapp.pkg []
    (testapp.request [] (testapp.bodyFor "NoParamsNoReturn")) [] ["NoParamsNoReturn called"]
    (testapp.envelope "NoParamsNoReturn") testapp.noParamsNoReturnFn
    (Or.inl rfl) rfl rfl (by decide) rfl
  ⟨rfl, by decide, h.1, h.2.1⟩

/-- C6 on the function ParamWithReturn of the test application and on the Echo scenario. -/
theorem callHandler_value_success_witness :
    (testapp.lib.Unmarshal "\x7b\"foo\":\"a\",\"bar\":1\x7d"
          testapp.paramWithReturnFn.fv.In1Elem = .ok (.fooExample "a" 1) ∧
        (callHandler testapp.lib testapp.pkg (Register.cnf []) http.ResponseWriter.fresh
            (testapp.request [] testapp.bodyParamWithReturn) []).w =
          { header := [("Content-Type", ["application/json; charset=utf-8"])],
            sent := some (200, [("Content-Type", ["application/json; charset=utf-8"])]),
            body := "\x7b\"foo\":\"anew-foo-value\",\"bar\":42\x7d\n" }) ∧
      (testapp.lib.Unmarshal "\x7b\"Bar\":1\x7d" testapp.echoFn.fv.In1Elem = .ok (.Foo 1) ∧
        (callHandler testapp.lib testapp.pkg (Register.cnf []) http.ResponseWriter.fresh
            (testapp.request [] testapp.bodyEcho) []).w =
          { header := [("Content-Type", ["application/json; charset=utf-8"])],
            sent := some (200, [("Content-Type", ["application/json; charset=utf-8"])]),
            body := "\x7b\"Bar\":2\x7d\n" }) :=
  ⟨⟨rfl,
    (callHandler_value_success testapp.lib testapp.pkg []
      (testapp.request [] testapp.bodyParamWithReturn) [] []
      { FnName := "ParamWithReturn", Accountability := none,
        Payload := "\x7b\"foo\":\"a\",\"bar\":1\x7d", Trigger := none }
      testapp.paramWithReturnFn [.fooExample "a" 1] (.fooExample "anew-foo-value" 42)
      "\x7b\"foo\":\"anew-foo-value\",\"bar\":42\x7d"
      (Or.inl rfl) rfl rfl (Or.inl ⟨rfl, _, rfl, rfl⟩) rfl rfl).1⟩,
   ⟨rfl,
    (callHandler_value_success testapp.lib testapp.pkg []
      (testapp.request [] testapp.bodyEcho) [] []
      { FnName := "Echo", Accountability := none,
        Payload := "\x7b\"Bar\":1\x7d", Trigger := none }
      testapp.echoFn [.Foo 1] (.Foo 2) "\x7b\"Bar\":2\x7d"
      (Or.inl rfl) rfl rfl (Or.inl ⟨rfl, _, rfl, rfl⟩) rfl rfl).1⟩⟩

/-- C8 on a function that returns a channel. -/
theorem callHandler_encode_failure_witness :
    testapp.pkg.funcs.lookup "Chan" = some testapp.chanFn ∧
      testapp.lib.Marshal .chan = .error "json: unsupported type: chan int" ∧
      (callHandler testapp.lib testapp.pkg (Register.cnf []) http.ResponseWriter.fresh
          (testapp.request [] (testapp.bodyFor "Chan")) []).w =
        { header := [("X-Content-Type-Options", ["nosniff"]),
                     ("Content-Type", ["text/plain; charset=utf-8"])],
          sent := some (500, [("X-Content-Type-Options", ["nosniff"]),
                              ("Content-Type", ["text/plain; charset=utf-8"])]),
          body := "cannot encode response data: json: unsupported type: chan int\n" } :=
  ⟨rfl, rfl,
    (callHandler_encode_failure testapp.lib testapp.pkg []
      (testapp.request [] (testapp.bodyFor "Chan")) [] [] (testapp.envelope "Chan")
      testapp.chanFn [] .chan "json: unsupported type: chan int"
      (Or.inl rfl) rfl rfl (Or.inr ⟨by decide, rfl⟩) rfl rfl).1⟩

/-- C9 on the function Accountability of the test application, called with an accountability
and no trigger: the line it prints shows the accountability it read from its context. -/
theorem callHandler_call_context_witness :
    testapp.lib.Decode (testapp.request [] testapp.bodyAccountability).Body =
        .ok { FnName := "Accountability", Accountability := some "\x7b\"user\":\"u1\"\x7d",
              Payload := "", Trigger := none } ∧
      testapp.pkg.funcs.lookup "Accountability" = some (testapp.accountabilityFn 0) ∧
      testapp.pkg.accountabilityKey ≠ testapp.pkg.rawTriggerKey ∧
      (callHandler testapp.lib testapp.pkg (Register.cnf []) http.ResponseWriter.fresh
          (testapp.request [] testapp.bodyAccountability) []).state =
        ["&callgo.Accountability\x7b\"user\":\"u1\"\x7d"] ∧
      (callHandler testapp.lib testapp.pkg (Register.cnf []) http.ResponseWriter.fresh
          (testapp.request [] testapp.bodyAccountability) []).w =
        { header := [], sent := some (200, []), body := "\x7b\x7d\n" } ∧
      invocations (callHandler testapp.lib testapp.pkg (Register.cnf [])
          http.ResponseWriter.fresh (testapp.request [] testapp.bodyAccountability) []).trace =
        [("Accountability",
          [(1, .rawTrigger none), (0, .accountability (some "\x7b\"user\":\"u1\"\x7d"))],
          [])] ∧
      Context.Value
          ([(1, .rawTrigger none), (0, .accountability (some "\x7b\"user\":\"u1\"\x7d"))] :
            Context String String) 1
        = some (.rawTrigger none) ∧
      Context.Value
          ([(1, .rawTrigger none), (0, .accountability (some "\x7b\"user\":\"u1\"\x7d"))] :
            Context String String) 0
        = some (.accountability (some "\x7b\"user\":\"u1\"\x7d")) :=
  have h := callHandler_call_context testapp.lib testapp.pkg []
    (testapp.request [] testapp.bodyAccountability) []
    { FnName := "Accountability", Accountability := some "\x7b\"user\":\"u1\"\x7d",
      Payload := "", Trigger := none }
    (testapp.accountabilityFn 0) []
    (Or.inl rfl) rfl rfl (Or.inr ⟨by decide, rfl⟩)
  ⟨rfl, rfl, by decide, h.1, h.2.1, h.2.2.1, h.2.2.2.1, h.2.2.2.2 (by decide)⟩

/-- C10 on options that set a token and then reset it to the empty string: a request with a
stray credential is served like the one without. -/
theorem callHandler_no_token_witness :
    (Register.cnf [WithSecurityToken "s3cr3t", WithSecurityToken ""]).securityToken = "" ∧
      callHandler testapp.lib testapp.pkg
          (Register.cnf [WithSecurityToken "s3cr3t", WithSecurityToken ""])
          http.ResponseWriter.fresh
          { testapp.request [] (testapp.bodyFor "NoParamsNoReturn") with
            Header := [("Authorization", ["Bearer nope"])] } [] =
        callHandler testapp.lib testapp.pkg
          (Register.cnf [WithSecurityToken "s3cr3t", WithSecurityToken ""])
          http.ResponseWriter.fresh
          (testapp.request [] (testapp.bodyFor "NoParamsNoReturn")) [] :=
  ⟨rfl,
    (callHandler_no_token testapp.lib testapp.pkg
      (Register.cnf [WithSecurityToken "s3cr3t", WithSecurityToken ""])
      (testapp.request [] (testapp.bodyFor "NoParamsNoReturn"))
      [("Authorization", ["Bearer nope"])] [] rfl).1⟩

end callgo
